import Mathlib

/-!
Verification of the CreditGuard research logger (`src/utils/logger.py`).

The module under study has two components: a Recorder (`_init_csv`,
`log_decision`, `_extract_key_id`) that appends one CSV row per
`CreditDecision`, and an Aggregator (`get_summary_stats`) that reads the
whole CSV back and computes summary statistics.

Embedding choices:
* The CSV store is a `Store`: `none` when the file does not exist, otherwise
  the list of its lines, each line a list of cells.
* A cell is a `PyVal`, the Python value handed to `csv.writer.writerow`.
  Python serializes it to text on write; `csv.DictReader` hands the text
  back.  `cellText` is that serialized text (`None` becomes the empty
  string, booleans become the literal `True`/`False` tokens).  `cellInt`
  and `cellFloat` compose serialization with `int(...)` / `float(...)`
  on read-back, using the fact that both round-trip exactly on values the
  writer produced; they return `none` where Python would raise.
* Python floats are modelled as rationals (`Rat`); none of the studied
  properties depends on binary rounding.
* `datetime` timestamps are modelled by their `isoformat()` text and the
  routing-strategy / decision enums by their serialized string values,
  which is all the logger reads from them.
-/

namespace CreditGuard

/-- One agent result inside `CreditDecision.llm_results`; the logger reads
only its `tokens_used` field. -/
structure AgentResult where
  tokens_used : Nat
deriving DecidableEq

/-- The optional `ml_prediction` sub-record of a `CreditDecision`. -/
structure MLPrediction where
  confidence_score : Rat
  default_probability : Rat
deriving DecidableEq

/-- The optional `fairness_check` sub-record of a `CreditDecision`. -/
structure FairnessCheck where
  is_triggered : Bool
  decision_changed : Bool
deriving DecidableEq

/-- The `CreditDecision` input record, restricted to the fields the logger
reads (`src/core/schemas.py` is outside the studied module; the field shapes
follow spec section 3 and the accesses in `logger.py`). -/
structure CreditDecision where
  timestamp : String
  applicant_id : String
  routing_strategy_used : String
  ml_prediction : Option MLPrediction
  llm_results : List AgentResult
  total_tokens : Nat
  processing_time_ms : Rat
  fairness_check : Option FairnessCheck
  decision : String
  final_risk_score : Rat
deriving DecidableEq

/-- A Python value as handed to `csv.writer.writerow`. -/
inductive PyVal
  | pyNone
  | pyStr (s : String)
  | pyBool (b : Bool)
  | pyInt (n : Int)
  | pyFloat (q : Rat)
deriving DecidableEq

/-- The text of a cell as `csv.DictReader` reads it back: Python's `str()`
of the written value, with `None` written as the empty field.  The exact
digits of a float's rendering are never compared by the code, so any
injective rendering that is never a `True`/`False` token is faithful. -/
def cellText : PyVal → String
  | .pyNone => ""
  | .pyStr s => s
  | .pyBool b => if b then "True" else "False"
  | .pyInt n => toString n
  | .pyFloat q => toString q.num ++ "/" ++ toString q.den

/-- `int(cell)` on the read-back text: exact on integers the writer wrote
(`int(str(n)) == n`), a decimal parse on string cells, and a `ValueError`
(`none`) on empty, boolean or float-formatted cells. -/
def cellInt : PyVal → Option Int
  | .pyInt n => some n
  | .pyStr s => s.toInt?
  | _ => none

/-- `float(cell)` on the read-back text: exact on floats and integers the
writer wrote (`float(str(x)) == x`), a `ValueError` (`none`) otherwise. -/
def cellFloat : PyVal → Option Rat
  | .pyFloat q => some q
  | .pyInt n => some (n : Rat)
  | _ => none

/-- The in-memory `ResearchLog` record built by `log_decision`. -/
structure ResearchLog where
  timestamp : String
  applicant_id : String
  routing_strategy : String
  ml_confidence_score : Option Rat
  ml_prediction : Option Rat
  total_tokens : Nat
  prompt_tokens : Nat
  completion_tokens : Int
  latency_ms : Rat
  active_key_id : String
  key_switches : Nat
  is_fairness_triggered : Bool
  fairness_decision_changed : Bool
  final_decision : String
  risk_score : Rat
deriving DecidableEq

/-- The persistent CSV store: `none` when `log_path` does not exist,
otherwise the list of lines currently in the file. -/
structure Store where
  file : Option (List (List PyVal))
deriving DecidableEq

/-- The fixed header written by `_init_csv` (15 column names). -/
def csvHeaders : List String :=
  ["timestamp", "applicant_id", "routing_strategy",
   "ml_confidence_score", "ml_prediction",
   "total_tokens", "prompt_tokens", "completion_tokens",
   "latency_ms", "active_key_id", "key_switches",
   "is_fairness_triggered", "fairness_decision_changed",
   "final_decision", "risk_score"]

/-- The header line as stored in the file. -/
def headerLine : List PyVal := csvHeaders.map PyVal.pyStr

/-- `ResearchLogger._init_csv`: create the CSV with headers if it does not
exist; leave an existing file untouched. -/
def initCsv (store : Store) : Store :=
  match store.file with
  | some _ => store
  | none => ⟨some [headerLine]⟩

/-- `ResearchLogger._extract_key_id`: `"key_used"` when `llm_results` is
truthy (non-empty), `"ml_only"` otherwise. -/
def extractKeyId (decision : CreditDecision) : String :=
  if decision.llm_results.isEmpty then "ml_only" else "key_used"

/-- The computation section of `log_decision`: token metrics, fairness
flags, optional ML fields, and assembly of the `ResearchLog` entry. -/
def mkLogEntry (decision : CreditDecision) (key_switches : Nat) : ResearchLog :=
  let total_tokens := decision.total_tokens
  let prompt_tokens :=
    if decision.llm_results.isEmpty then 0
    else (decision.llm_results.map AgentResult.tokens_used).sum
  let completion_tokens : Int := (total_tokens : Int) - (prompt_tokens : Int)
  let fairness_triggered :=
    match decision.fairness_check with
    | some fc => fc.is_triggered
    | none => false
  let fairness_changed :=
    match decision.fairness_check with
    | some fc => fc.decision_changed
    | none => false
  let ml_confidence := decision.ml_prediction.map MLPrediction.confidence_score
  let ml_prob := decision.ml_prediction.map MLPrediction.default_probability
  { timestamp := decision.timestamp
    applicant_id := decision.applicant_id
    routing_strategy := decision.routing_strategy_used
    ml_confidence_score := ml_confidence
    ml_prediction := ml_prob
    total_tokens := total_tokens
    prompt_tokens := prompt_tokens
    completion_tokens := completion_tokens
    latency_ms := decision.processing_time_ms
    active_key_id := extractKeyId decision
    key_switches := key_switches
    is_fairness_triggered := fairness_triggered
    fairness_decision_changed := fairness_changed
    final_decision := decision.decision
    risk_score := decision.final_risk_score }

/-- An optional float field as written: `None` gives an empty cell. -/
def optFloatCell : Option Rat → PyVal
  | none => PyVal.pyNone
  | some q => PyVal.pyFloat q

/-- The `writer.writerow([...])` argument of `log_decision`: the 15 cells
of one data row, in the fixed column order. -/
def serializeRow (e : ResearchLog) : List PyVal :=
  [PyVal.pyStr e.timestamp,
   PyVal.pyStr e.applicant_id,
   PyVal.pyStr e.routing_strategy,
   optFloatCell e.ml_confidence_score,
   optFloatCell e.ml_prediction,
   PyVal.pyInt (e.total_tokens : Int),
   PyVal.pyInt (e.prompt_tokens : Int),
   PyVal.pyInt e.completion_tokens,
   PyVal.pyFloat e.latency_ms,
   PyVal.pyStr e.active_key_id,
   PyVal.pyInt (e.key_switches : Int),
   PyVal.pyBool e.is_fairness_triggered,
   PyVal.pyBool e.fairness_decision_changed,
   PyVal.pyStr e.final_decision,
   PyVal.pyFloat e.risk_score]

/-- The data row `log_decision` appends for a given decision. -/
def rowOf (decision : CreditDecision) (key_switches : Nat) : List PyVal :=
  serializeRow (mkLogEntry decision key_switches)

/-- `ResearchLogger.log_decision`: append exactly one serialized row to the
store (`open(..., 'a')` creates the file when absent). -/
def logDecision (store : Store) (decision : CreditDecision)
    (key_switches : Nat) : Store :=
  ⟨some (store.file.getD [] ++ [rowOf decision key_switches])⟩

/-- Cell `i` of a read-back row; `csv.DictReader` fills missing trailing
fields with `None` (its `restval`). -/
def cellAt (row : List PyVal) (i : Nat) : PyVal :=
  row.getD i PyVal.pyNone

/-- `sum(int(r[col]) for r in rows)`: `none` when any cell fails to parse
(Python would raise). -/
def sumIntCol : List (List PyVal) → Nat → Option Int
  | [], _ => some 0
  | r :: rs, i =>
    match cellInt (cellAt r i), sumIntCol rs i with
    | some v, some rest => some (v + rest)
    | _, _ => none

/-- `sum(float(r[col]) for r in rows)`: `none` when any cell fails to
parse. -/
def sumFloatCol : List (List PyVal) → Nat → Option Rat
  | [], _ => some 0
  | r :: rs, i =>
    match cellFloat (cellAt r i), sumFloatCol rs i with
    | some v, some rest => some (v + rest)
    | _, _ => none

/-- `routing_dist[strategy] = routing_dist.get(strategy, 0) + 1`, on an
insertion-ordered association list modelling the Python dict. -/
def bumpKey : List (String × Nat) → String → List (String × Nat)
  | [], k => [(k, 1)]
  | (k', n) :: rest, k =>
    if k' = k then (k', n + 1) :: rest else (k', n) :: bumpKey rest k

/-- The routing-strategy occurrence counts over all rows, in first-seen
order. -/
def routingDist (rows : List (List PyVal)) : List (String × Nat) :=
  rows.foldl (fun acc r => bumpKey acc (cellText (cellAt r 2))) []

/-- `sum(1 for r in rows if r[col] == 'True')`. -/
def countColTrue (rows : List (List PyVal)) (i : Nat) : Nat :=
  rows.countP (fun r => cellText (cellAt r i) == "True")

/-- The statistics dictionary returned by `get_summary_stats` on success. -/
structure SummaryStats where
  total_evaluations : Nat
  token_total : Int
  average_per_request : Rat
  estimated_cost_usd : Rat
  average_latency_ms : Rat
  routing_distribution : List (String × Nat)
  fairness_triggers : Nat
  fairness_changes : Nat
  change_rate : Rat
  total_key_switches : Int
  switch_rate : Rat
deriving DecidableEq

/-- Outcome of `get_summary_stats`: one of the two `{"error": ...}`
dictionaries, a statistics dictionary, or a raised `ValueError` from a
malformed numeric cell. -/
inductive SummaryResult
  | errorDict (msg : String)
  | stats (s : SummaryStats)
  | valueError
deriving DecidableEq

/-- `ResearchLogger.get_summary_stats`: missing file and header-only file
give the two error dictionaries; otherwise every aggregate is recomputed
from the full list of data rows (`list(csv.DictReader(f))`, i.e. all lines
after the header). -/
def getSummaryStats (store : Store) : SummaryResult :=
  match store.file with
  | none => .errorDict "No logs found"
  | some lines =>
    let rows := lines.drop 1
    if rows.isEmpty then .errorDict "Log file is empty"
    else
      let total := rows.length
      match sumIntCol rows 5, sumFloatCol rows 8, sumIntCol rows 10 with
      | some total_tokens, some latency_sum, some total_switches =>
        let fairness_triggers := countColTrue rows 11
        let fairness_changes := countColTrue rows 12
        .stats
          { total_evaluations := total
            token_total := total_tokens
            average_per_request := (total_tokens : Rat) / (total : Rat)
            estimated_cost_usd := (total_tokens : Rat) * (1 / 10000000 : Rat)
            average_latency_ms := latency_sum / (total : Rat)
            routing_distribution := routingDist rows
            fairness_triggers := fairness_triggers
            fairness_changes := fairness_changes
            change_rate :=
              if 0 < fairness_triggers then
                (fairness_changes : Rat) / (fairness_triggers : Rat)
              else 0
            total_key_switches := total_switches
            switch_rate := (total_switches : Rat) / (total : Rat) }
      | _, _, _ => .valueError

/-- A sequence of `log_decision` calls, in order. -/
def appendAll (store : Store) (calls : List (CreditDecision × Nat)) : Store :=
  calls.foldl (fun st c => logDecision st c.1 c.2) store

/-- A store produced by initializing a fresh path and then appending the
given calls. -/
def freshStore (calls : List (CreditDecision × Nat)) : Store :=
  appendAll (initCsv ⟨none⟩) calls

/-- The fairness `is_triggered` flag `log_decision` extracts from a
decision (`False` when the sub-record is absent). -/
def triggeredFlag (decision : CreditDecision) : Bool :=
  match decision.fairness_check with
  | some fc => fc.is_triggered
  | none => false

/-- The fairness `decision_changed` flag `log_decision` extracts from a
decision (`False` when the sub-record is absent). -/
def changedFlag (decision : CreditDecision) : Bool :=
  match decision.fairness_check with
  | some fc => fc.decision_changed
  | none => false

/-- The data rows produced by a list of calls, in call order. -/
def rowsOf (calls : List (CreditDecision × Nat)) : List (List PyVal) :=
  calls.map fun c => rowOf c.1 c.2

/-- The round-trip scenario input of spec section 8: two agent results with
60 and 10 tokens, `total_tokens = 100`, no ML prediction, a fairness check
that triggered without changing the decision. -/
def exampleDecision : CreditDecision :=
  { timestamp := "2026-01-01T00:00:00"
    applicant_id := "A1"
    routing_strategy_used := "hybrid"
    ml_prediction := none
    llm_results := [⟨60⟩, ⟨10⟩]
    total_tokens := 100
    processing_time_ms := 5
    fairness_check := some ⟨true, false⟩
    decision := "approve"
    final_risk_score := 1/2 }

/-- The store of the round-trip scenario: freshly initialized, then exactly
one append with `key_switches = 2`. -/
def store1 : Store := logDecision (initCsv ⟨none⟩) exampleDecision 2

/-- A decision whose fairness check triggered but did not change the
decision. -/
def triggeredNoChange : CreditDecision := exampleDecision

/-- A decision whose fairness check did not trigger yet is marked as having
changed the decision. -/
def changedNotTriggered : CreditDecision :=
  { exampleDecision with
    applicant_id := "A2"
    fairness_check := some ⟨false, true⟩ }

/-- A store with one triggered-unchanged row and two untriggered-changed
rows: the aggregator counts 1 trigger but 2 decision changes on it. -/
def store3 : Store :=
  freshStore
    [(triggeredNoChange, 0), (changedNotTriggered, 0), (changedNotTriggered, 0)]

theorem rowsOf_nil : rowsOf [] = [] := rfl

theorem rowsOf_cons (c : CreditDecision × Nat) (cs : List (CreditDecision × Nat)) :
    rowsOf (c :: cs) = rowOf c.1 c.2 :: rowsOf cs := rfl

theorem appendAll_file (calls : List (CreditDecision × Nat))
    (lines : List (List PyVal)) :
    (appendAll ⟨some lines⟩ calls).file = some (lines ++ rowsOf calls) := by
  induction calls generalizing lines with
  | nil => simp [appendAll, rowsOf]
  | cons c cs ih =>
    have hstep : logDecision ⟨some lines⟩ c.1 c.2
        = ⟨some (lines ++ [rowOf c.1 c.2])⟩ := rfl
    simp only [appendAll, List.foldl_cons] at ih ⊢
    rw [hstep, ih, rowsOf_cons, List.append_assoc, List.singleton_append]

theorem freshStore_file (calls : List (CreditDecision × Nat)) :
    (freshStore calls).file = some (headerLine :: rowsOf calls) := by
  have h := appendAll_file calls [headerLine]
  simpa [freshStore, initCsv] using h

theorem cellInt_rowOf_total (d : CreditDecision) (ks : Nat) :
    cellInt (cellAt (rowOf d ks) 5) = some (d.total_tokens : Int) := rfl

theorem cellFloat_rowOf_latency (d : CreditDecision) (ks : Nat) :
    cellFloat (cellAt (rowOf d ks) 8) = some d.processing_time_ms := rfl

theorem cellInt_rowOf_switches (d : CreditDecision) (ks : Nat) :
    cellInt (cellAt (rowOf d ks) 10) = some (ks : Int) := rfl

theorem cellTrue_triggered (d : CreditDecision) (ks : Nat) :
    (cellText (cellAt (rowOf d ks) 11) == "True") = triggeredFlag d := by
  rcases hfc : d.fairness_check with _ | fc
  · simp [rowOf, serializeRow, mkLogEntry, cellAt, cellText, triggeredFlag, hfc]
  · cases hb : fc.is_triggered <;>
      simp [rowOf, serializeRow, mkLogEntry, cellAt, cellText, triggeredFlag,
        hfc, hb]

theorem cellTrue_changed (d : CreditDecision) (ks : Nat) :
    (cellText (cellAt (rowOf d ks) 12) == "True") = changedFlag d := by
  rcases hfc : d.fairness_check with _ | fc
  · simp [rowOf, serializeRow, mkLogEntry, cellAt, cellText, changedFlag, hfc]
  · cases hb : fc.decision_changed <;>
      simp [rowOf, serializeRow, mkLogEntry, cellAt, cellText, changedFlag,
        hfc, hb]

theorem sumIntCol_five (calls : List (CreditDecision × Nat)) :
    sumIntCol (rowsOf calls) 5
      = some ((calls.map fun c => (c.1.total_tokens : Int)).sum) := by
  induction calls with
  | nil => rfl
  | cons c cs ih =>
    rw [rowsOf_cons]
    simp [sumIntCol, cellInt_rowOf_total, ih]

theorem sumFloatCol_eight (calls : List (CreditDecision × Nat)) :
    sumFloatCol (rowsOf calls) 8
      = some ((calls.map fun c => c.1.processing_time_ms).sum) := by
  induction calls with
  | nil => rfl
  | cons c cs ih =>
    rw [rowsOf_cons]
    simp [sumFloatCol, cellFloat_rowOf_latency, ih]

theorem sumIntCol_ten (calls : List (CreditDecision × Nat)) :
    sumIntCol (rowsOf calls) 10
      = some ((calls.map fun c => (c.2 : Int)).sum) := by
  induction calls with
  | nil => rfl
  | cons c cs ih =>
    rw [rowsOf_cons]
    simp [sumIntCol, cellInt_rowOf_switches, ih]

theorem countColTrue_eleven (calls : List (CreditDecision × Nat)) :
    countColTrue (rowsOf calls) 11
      = calls.countP fun c => triggeredFlag c.1 := by
  induction calls with
  | nil => rfl
  | cons c cs ih =>
    rw [rowsOf_cons]
    simp only [countColTrue] at ih ⊢
    rw [List.countP_cons, List.countP_cons, cellTrue_triggered, ih]

theorem countColTrue_twelve (calls : List (CreditDecision × Nat)) :
    countColTrue (rowsOf calls) 12
      = calls.countP fun c => changedFlag c.1 := by
  induction calls with
  | nil => rfl
  | cons c cs ih =>
    rw [rowsOf_cons]
    simp only [countColTrue] at ih ⊢
    rw [List.countP_cons, List.countP_cons, cellTrue_changed, ih]

theorem getSummaryStats_freshStore (calls : List (CreditDecision × Nat))
    (h : calls ≠ []) :
    getSummaryStats (freshStore calls) = SummaryResult.stats
      { total_evaluations := calls.length
        token_total := (calls.map fun c => (c.1.total_tokens : Int)).sum
        average_per_request :=
          (((calls.map fun c => (c.1.total_tokens : Int)).sum : Rat)
            / (calls.length : Rat))
        estimated_cost_usd :=
          (((calls.map fun c => (c.1.total_tokens : Int)).sum : Rat)
            * (1 / 10000000 : Rat))
        average_latency_ms :=
          ((calls.map fun c => c.1.processing_time_ms).sum
            / (calls.length : Rat))
        routing_distribution := routingDist (rowsOf calls)
        fairness_triggers := calls.countP fun c => triggeredFlag c.1
        fairness_changes := calls.countP fun c => changedFlag c.1
        change_rate :=
          if 0 < calls.countP (fun c => triggeredFlag c.1) then
            ((calls.countP fun c => changedFlag c.1 : Nat) : Rat)
              / ((calls.countP fun c => triggeredFlag c.1 : Nat) : Rat)
          else 0
        total_key_switches := (calls.map fun c => (c.2 : Int)).sum
        switch_rate :=
          (((calls.map fun c => (c.2 : Int)).sum : Rat)
            / (calls.length : Rat)) } := by
  have hfile : freshStore calls = ⟨some (headerLine :: rowsOf calls)⟩ := by
    rw [← freshStore_file calls]
  rw [hfile]
  have hne : rowsOf calls ≠ [] := by
    simp [rowsOf, h]
  have hne2 : (rowsOf calls).isEmpty = false := by
    cases hc : rowsOf calls
    · exact absurd hc hne
    · rfl
  simp only [getSummaryStats, List.drop_succ_cons, List.drop_zero, hne2,
    Bool.false_eq_true, if_false]
  rw [sumIntCol_five, sumFloatCol_eight, sumIntCol_ten]
  simp only [countColTrue_eleven, countColTrue_twelve]
  simp [rowsOf]

/-- C1: round-trip of one record through the Recorder and the Aggregator:
appending the scenario decision (total_tokens 100, agent tokens 60 and 10,
no ML prediction, fairness triggered without decision change) with
key_switches 2 to a freshly initialized store yields a header plus one row
with prompt_tokens 70, completion_tokens 30, an empty ml_confidence_score
cell, is_fairness_triggered serialized `True` and fairness_decision_changed
serialized `False`; summarizing that store yields total_evaluations 1,
token_usage.total 100, fairness triggers 1, change_rate 0 and switch_rate
2. -/
theorem round_trip_one_record :
    store1.file = some [headerLine, rowOf exampleDecision 2] ∧
    cellAt (rowOf exampleDecision 2) 6 = PyVal.pyInt 70 ∧
    cellAt (rowOf exampleDecision 2) 7 = PyVal.pyInt 30 ∧
    cellAt (rowOf exampleDecision 2) 3 = PyVal.pyNone ∧
    cellText (cellAt (rowOf exampleDecision 2) 3) = "" ∧
    cellText (cellAt (rowOf exampleDecision 2) 11) = "True" ∧
    cellText (cellAt (rowOf exampleDecision 2) 12) = "False" ∧
    ∃ st, getSummaryStats store1 = SummaryResult.stats st ∧
      st.total_evaluations = 1 ∧ st.token_total = 100 ∧
      st.fairness_triggers = 1 ∧ st.change_rate = 0 ∧ st.switch_rate = 2 := by
  have hfull : getSummaryStats store1 = SummaryResult.stats
      { total_evaluations := 1, token_total := 100, average_per_request := 100,
        estimated_cost_usd := 100 * (1 / 10000000 : Rat),
        average_latency_ms := 5,
        routing_distribution := [("hybrid", 1)], fairness_triggers := 1,
        fairness_changes := 0, change_rate := 0, total_key_switches := 2,
        switch_rate := 2 } := by
    norm_num [getSummaryStats, store1, initCsv, headerLine, csvHeaders, rowOf,
      serializeRow, mkLogEntry, optFloatCell, extractKeyId, cellAt, cellText,
      cellInt, cellFloat, sumIntCol, sumFloatCol, countColTrue, routingDist,
      bumpKey, exampleDecision, logDecision, List.countP]
    decide
  exact ⟨rfl, by decide, by decide, rfl, rfl, rfl, rfl,
    _, hfull, rfl, rfl, rfl, rfl, rfl⟩

/-- C2: for every decision and key-switch count, the row appended by
`log_decision` has prompt_tokens equal to the sum of `tokens_used` over
`llm_results` (0 when empty) and completion_tokens equal to
`total_tokens - prompt_tokens`. -/
theorem token_arithmetic (store : Store) (decision : CreditDecision)
    (ks : Nat) :
    (logDecision store decision ks).file
      = some (store.file.getD [] ++ [rowOf decision ks]) ∧
    cellAt (rowOf decision ks) 6
      = PyVal.pyInt
          (((decision.llm_results.map AgentResult.tokens_used).sum : Int)) ∧
    cellAt (rowOf decision ks) 7
      = PyVal.pyInt ((decision.total_tokens : Int)
          - ((decision.llm_results.map AgentResult.tokens_used).sum : Int)) := by
  refine ⟨rfl, ?_, ?_⟩ <;>
    cases hl : decision.llm_results <;>
      simp [rowOf, serializeRow, mkLogEntry, cellAt, hl]

/-- C5: summarizing a missing store returns the `No logs found` error
dictionary, summarizing an initialized header-only store (or any store with
zero data rows) returns the distinct `Log file is empty` error dictionary,
and neither is a statistics record. -/
theorem missing_and_empty_conditions :
    getSummaryStats ⟨none⟩ = SummaryResult.errorDict "No logs found" ∧
    getSummaryStats (initCsv ⟨none⟩)
      = SummaryResult.errorDict "Log file is empty" ∧
    (∀ line : List PyVal, getSummaryStats ⟨some [line]⟩
      = SummaryResult.errorDict "Log file is empty") ∧
    "No logs found" ≠ "Log file is empty" ∧
    (∀ msg st, SummaryResult.errorDict msg ≠ SummaryResult.stats st) :=
  ⟨rfl, rfl, fun _ => rfl, by decide, fun _ _ => by simp⟩

/-- C6: `_init_csv` on an existing store is a no-op, so initializing twice
on a fresh path yields a store with exactly the one header line naming the
15 fixed fields and zero data rows. -/
theorem init_csv_idempotent (lines : List (List PyVal)) :
    initCsv ⟨some lines⟩ = ⟨some lines⟩ ∧
    initCsv (initCsv ⟨none⟩) = initCsv ⟨none⟩ ∧
    (initCsv ⟨none⟩).file = some [headerLine] ∧
    csvHeaders.length = 15 :=
  ⟨rfl, rfl, rfl, rfl⟩

/-- C7: when `ml_prediction` is absent the appended row carries the null
cell (never a number) in both ML columns; when present, the columns carry
its `confidence_score` and `default_probability`. -/
theorem ml_fields_nullable (store : Store) (decision : CreditDecision)
    (ks : Nat) :
    (logDecision store decision ks).file
      = some (store.file.getD [] ++ [rowOf decision ks]) ∧
    (decision.ml_prediction = none →
      cellAt (rowOf decision ks) 3 = PyVal.pyNone ∧
      cellAt (rowOf decision ks) 4 = PyVal.pyNone) ∧
    (∀ p, decision.ml_prediction = some p →
      cellAt (rowOf decision ks) 3 = PyVal.pyFloat p.confidence_score ∧
      cellAt (rowOf decision ks) 4 = PyVal.pyFloat p.default_probability) ∧
    (∀ q : Rat, PyVal.pyNone ≠ PyVal.pyFloat q) := by
  refine ⟨rfl, ?_, ?_, fun q => by simp⟩
  · intro hnone
    constructor <;>
      simp [rowOf, serializeRow, mkLogEntry, optFloatCell, cellAt, hnone]
  · intro p hp
    constructor <;>
      simp [rowOf, serializeRow, mkLogEntry, optFloatCell, cellAt, hp]

/-- C7 witness: the scenario decision has no ML prediction and its row
carries null cells in both ML columns. -/
theorem ml_fields_nullable_witness :
    cellAt (rowOf exampleDecision 2) 3 = PyVal.pyNone ∧
    cellAt (rowOf exampleDecision 2) 4 = PyVal.pyNone :=
  (ml_fields_nullable ⟨none⟩ exampleDecision 2).2.1 rfl

/-- C8: the `active_key_id` cell of every appended row is the string
`key_used` when `llm_results` is non-empty and `ml_only` when it is empty;
no other value ever appears there. -/
theorem active_key_placeholder (store : Store) (decision : CreditDecision)
    (ks : Nat) :
    cellAt (rowOf decision ks) 9
      = PyVal.pyStr
          (if decision.llm_results.isEmpty then "ml_only" else "key_used") ∧
    (cellAt (rowOf decision ks) 9 = PyVal.pyStr "key_used" ∨
      cellAt (rowOf decision ks) 9 = PyVal.pyStr "ml_only") ∧
    (logDecision store decision ks).file
      = some (store.file.getD [] ++ [rowOf decision ks]) := by
  refine ⟨rfl, ?_, rfl⟩
  cases hb : decision.llm_results.isEmpty
  · left
    simp [rowOf, serializeRow, mkLogEntry, cellAt, extractKeyId, hb]
  · right
    simp [rowOf, serializeRow, mkLogEntry, cellAt, extractKeyId, hb]

/-- C9: the summary is a function of the store contents alone: two stores
with equal contents give equal statistics, with no other state involved. -/
theorem summary_depends_only_on_store (s₁ s₂ : Store)
    (h : s₁.file = s₂.file) : getSummaryStats s₁ = getSummaryStats s₂ := by
  cases s₁
  cases s₂
  cases h
  rfl

/-- C9 witness: two invocations over the round-trip store's contents agree. -/
theorem summary_depends_only_on_store_witness :
    getSummaryStats store1 = getSummaryStats ⟨store1.file⟩ :=
  summary_depends_only_on_store store1 ⟨store1.file⟩ rfl

/-- C3: appending N records to a store leaves the lines already present
unchanged as a prefix and adds exactly N data rows after them, one per call
and in call order; on a freshly initialized store the result is the header
followed by the N rows. -/
theorem append_only_rows (lines : List (List PyVal))
    (calls : List (CreditDecision × Nat)) :
    (appendAll ⟨some lines⟩ calls).file = some (lines ++ rowsOf calls) ∧
    (freshStore calls).file = some (headerLine :: rowsOf calls) ∧
    (rowsOf calls).length = calls.length ∧
    (∀ i : Nat, (rowsOf calls)[i]?
      = (calls[i]?).map fun c => rowOf c.1 c.2) := by
  refine ⟨appendAll_file calls lines, freshStore_file calls, ?_, ?_⟩
  · simp [rowsOf]
  · intro i
    simp [rowsOf]

/-- C4: on every non-empty recorder-written store, the summary is a
statistics record (no exception); its trigger and change counts are the
counts of appended decisions with the respective fairness flags; when no
appended decision triggered, change_rate is 0 rather than a division
error, and when triggers are positive change_rate is changes / triggers. -/
theorem change_rate_guard (calls : List (CreditDecision × Nat))
    (h : calls ≠ []) :
    ∃ st, getSummaryStats (freshStore calls) = SummaryResult.stats st ∧
      st.fairness_triggers = calls.countP (fun c => triggeredFlag c.1) ∧
      st.fairness_changes = calls.countP (fun c => changedFlag c.1) ∧
      ((∀ c ∈ calls, triggeredFlag c.1 = false) → st.change_rate = 0) ∧
      (0 < st.fairness_triggers →
        st.change_rate
          = (st.fairness_changes : Rat) / (st.fairness_triggers : Rat)) := by
  refine ⟨_, getSummaryStats_freshStore calls h, rfl, rfl, ?_, ?_⟩
  · intro hall
    have h0 : calls.countP (fun c => triggeredFlag c.1) = 0 := by
      rw [List.countP_eq_zero]
      intro a ha
      simp [hall a ha]
    show (if 0 < calls.countP (fun c => triggeredFlag c.1) then
        ((calls.countP fun c => changedFlag c.1 : Nat) : Rat)
          / ((calls.countP fun c => triggeredFlag c.1 : Nat) : Rat)
      else 0) = 0
    rw [h0]
    simp
  · intro hpos
    show (if 0 < calls.countP (fun c => triggeredFlag c.1) then
        ((calls.countP fun c => changedFlag c.1 : Nat) : Rat)
          / ((calls.countP fun c => triggeredFlag c.1 : Nat) : Rat)
      else 0) = _
    rw [if_pos hpos]

/-- C4 witness: the guard instantiated on a store holding one untriggered,
decision-changed row. -/
theorem change_rate_guard_witness :
    ∃ st, getSummaryStats (freshStore [(changedNotTriggered, 0)])
        = SummaryResult.stats st ∧
      st.fairness_triggers
        = [(changedNotTriggered, 0)].countP (fun c => triggeredFlag c.1) ∧
      st.fairness_changes
        = [(changedNotTriggered, 0)].countP (fun c => changedFlag c.1) ∧
      ((∀ c ∈ [(changedNotTriggered, 0)], triggeredFlag c.1 = false) →
        st.change_rate = 0) ∧
      (0 < st.fairness_triggers →
        st.change_rate
          = (st.fairness_changes : Rat) / (st.fairness_triggers : Rat)) :=
  change_rate_guard [(changedNotTriggered, 0)] (List.cons_ne_nil _ _)

/-- C10: `decision_changes` counts every row whose
`fairness_decision_changed` cell reads `True` regardless of that row's
`is_fairness_triggered` cell, so the store with one triggered-unchanged row
and two untriggered-changed rows summarizes to 1 trigger, 2 decision
changes and a change_rate of 2, strictly greater than 1. -/
theorem change_rate_exceeds_one :
    cellText (cellAt (rowOf changedNotTriggered 0) 11) = "False" ∧
    cellText (cellAt (rowOf changedNotTriggered 0) 12) = "True" ∧
    ∃ st, getSummaryStats store3 = SummaryResult.stats st ∧
      st.fairness_triggers = 1 ∧ st.fairness_changes = 2 ∧
      st.change_rate = 2 ∧ 1 < st.change_rate := by
  have h := getSummaryStats_freshStore
    [(triggeredNoChange, 0), (changedNotTriggered, 0), (changedNotTriggered, 0)]
    (List.cons_ne_nil _ _)
  have ht : List.countP (fun c => triggeredFlag c.1)
      [(triggeredNoChange, (0 : Nat)), (changedNotTriggered, 0),
        (changedNotTriggered, 0)] = 1 := by decide
  have hc : List.countP (fun c => changedFlag c.1)
      [(triggeredNoChange, (0 : Nat)), (changedNotTriggered, 0),
        (changedNotTriggered, 0)] = 2 := by decide
  refine ⟨rfl, rfl, _, h, ?_, ?_, ?_, ?_⟩
  · exact ht
  · exact hc
  · show (if 0 < List.countP (fun c => triggeredFlag c.1)
          [(triggeredNoChange, (0 : Nat)), (changedNotTriggered, 0),
            (changedNotTriggered, 0)] then
        ((List.countP (fun c => changedFlag c.1)
            [(triggeredNoChange, (0 : Nat)), (changedNotTriggered, 0),
              (changedNotTriggered, 0)] : Nat) : Rat)
          / ((List.countP (fun c => triggeredFlag c.1)
              [(triggeredNoChange, (0 : Nat)), (changedNotTriggered, 0),
                (changedNotTriggered, 0)] : Nat) : Rat)
      else 0) = 2
    rw [ht, hc]
    norm_num
  · show (1 : Rat) < (if 0 < List.countP (fun c => triggeredFlag c.1)
          [(triggeredNoChange, (0 : Nat)), (changedNotTriggered, 0),
            (changedNotTriggered, 0)] then
        ((List.countP (fun c => changedFlag c.1)
            [(triggeredNoChange, (0 : Nat)), (changedNotTriggered, 0),
              (changedNotTriggered, 0)] : Nat) : Rat)
          / ((List.countP (fun c => triggeredFlag c.1)
              [(triggeredNoChange, (0 : Nat)), (changedNotTriggered, 0),
                (changedNotTriggered, 0)] : Nat) : Rat)
      else 0)
    rw [ht, hc]
    norm_num

end CreditGuard
